import Mathlib

/-!
Shallow embedding of the "Assignment" Expo/React-Native app:
the playback-status derivation logic of `src/app/video-player.tsx`,
the notification scheduling logic of `src/app/(tabs)/index.tsx`,
and the theme-preference store of `src/contexts/ThemeContext.tsx`.
-/

/-- The `AVPlaybackStatus` values delivered by the media element (expo-av).
A loaded status carries `positionMillis` (integer ms, always present when
loaded), an optional `durationMillis` (absent for live/unknown streams) and
`isPlaying`; a not-loaded status carries none of those fields, which is what
the code's `'positionMillis' in status` membership test distinguishes. -/
inductive AVPlaybackStatus where
  | notLoaded
  | loaded (positionMillis : Nat) (durationMillis : Option Nat) (isPlaying : Bool)
  deriving DecidableEq

/-- JavaScript `padStart(n, c)` on a string: left-pad with `c` up to length `n`. -/
def padStart (s : String) (n : Nat) (c : Char) : String :=
  if n ≤ s.length then s else String.mk (List.replicate (n - s.length) c) ++ s

/-- Embedding of `getCurrentTime` (video-player.tsx lines 183-191): the screen
state `status` is `AVPlaybackStatus | null`, modelled as `Option`; when the
status is present and has a `positionMillis` field (i.e. is loaded), format
floor(position/1000) as `M:SS` with the seconds zero-padded to two digits,
else return "0:00". -/
def getCurrentTime (status : Option AVPlaybackStatus) : String :=
  match status with
  | some (AVPlaybackStatus.loaded positionMillis _ _) =>
      let seconds := positionMillis / 1000
      let mins := seconds / 60
      let secs := seconds % 60
      Nat.repr mins ++ ":" ++ padStart (Nat.repr secs) 2 '0'
  | _ => "0:00"

/-- Embedding of `getDuration` (video-player.tsx lines 194-202): the guard is
`status && 'durationMillis' in status && status.durationMillis`, so the
duration must be present AND truthy (nonzero); otherwise "0:00". -/
def getDuration (status : Option AVPlaybackStatus) : String :=
  match status with
  | some (AVPlaybackStatus.loaded _ (some durationMillis) _) =>
      if durationMillis != 0 then
        let seconds := durationMillis / 1000
        let mins := seconds / 60
        let secs := seconds % 60
        Nat.repr mins ++ ":" ++ padStart (Nat.repr secs) 2 '0'
      else "0:00"
  | _ => "0:00"

/-- Embedding of `getProgress` (video-player.tsx lines 205-210): under the same
truthiness guard on `durationMillis`, `(positionMillis / durationMillis) * 100`
(exact JS float division modelled as rational division), else 0. -/
def getProgress (status : Option AVPlaybackStatus) : ℚ :=
  match status with
  | some (AVPlaybackStatus.loaded positionMillis (some durationMillis) _) =>
      if durationMillis != 0 then
        ((positionMillis : ℚ) / (durationMillis : ℚ)) * 100
      else 0
  | _ => 0

/-- The guard under which `getProgress` reaches its division: true exactly on
the branch of the source that evaluates `positionMillis / durationMillis`. -/
def getProgressDivides (status : Option AVPlaybackStatus) : Bool :=
  match status with
  | some (AVPlaybackStatus.loaded _ (some durationMillis) _) => durationMillis != 0
  | _ => false

/-- A status whose `durationMillis` is absent (status null or not loaded),
unknown (field undefined), or zero. -/
def durationUnknownOrZero (status : Option AVPlaybackStatus) : Bool :=
  match status with
  | some (AVPlaybackStatus.loaded _ (some durationMillis) _) => durationMillis == 0
  | _ => true

/-- Platform commands the video-player screen can issue against the media
element handle (`videoRef.current`). -/
inductive Command where
  | play
  | pause
  | setPosition (ms : Int)
  | setMuted (b : Bool)
  | presentFullscreen
  | dismissFullscreen
  deriving DecidableEq

/-- An awaited platform call on the optional-chained handle either finds the
handle null (`videoRef.current?.` evaluates to `undefined`, which awaits to a
resolved value and issues no command), or finds it present and resolves, or
finds it present and rejects (caught by the handler's `try/catch`). -/
inductive CallOutcome where
  | refNull
  | resolves
  | rejects
  deriving DecidableEq

/-- Embedding of `handlePlay` (video-player.tsx lines 129-135): returns the
list of platform commands issued. With a null ref the optional chain issues
nothing; a rejection is caught and logged. No screen state is touched. -/
def handlePlay (o : CallOutcome) : List Command :=
  match o with
  | CallOutcome.refNull => []
  | _ => [Command.play]

/-- Embedding of `handlePause` (video-player.tsx lines 138-144), analogous to
`handlePlay`. -/
def handlePause (o : CallOutcome) : List Command :=
  match o with
  | CallOutcome.refNull => []
  | _ => [Command.pause]

/-- Embedding of `handleSeek` (video-player.tsx lines 147-156): only when the
latest status is non-null and has a `positionMillis` field does it compute
`newPosition = status.positionMillis + seconds * 1000` and issue an absolute
`setPositionAsync(newPosition)` (no clamping); returns the commands issued. -/
def handleSeek (status : Option AVPlaybackStatus) (seconds : Int) (o : CallOutcome) :
    List Command :=
  match status with
  | some (AVPlaybackStatus.loaded positionMillis _ _) =>
      let newPosition := (positionMillis : Int) + seconds * 1000
      match o with
      | CallOutcome.refNull => []
      | _ => [Command.setPosition newPosition]
  | _ => []

/-- Embedding of `handleToggleMute` (video-player.tsx lines 159-166): awaits
`videoRef.current?.setIsMutedAsync(!isMuted)` then sets `isMuted` to its
negation; a rejection is caught before the state update, so the flag only
flips when the awaited expression resolves (including the vacuous null-ref
resolution). Returns the new `isMuted` flag and the commands issued. -/
def handleToggleMute (isMuted : Bool) (o : CallOutcome) : Bool × List Command :=
  match o with
  | CallOutcome.refNull => (!isMuted, [])
  | CallOutcome.resolves => (!isMuted, [Command.setMuted (!isMuted)])
  | CallOutcome.rejects => (isMuted, [Command.setMuted (!isMuted)])

/-- Embedding of `handleToggleFullscreen` (video-player.tsx lines 169-180):
issues present/dismiss depending on the current local flag, then flips the
flag after the awaited call resolves; rejection is caught before the state
update. Returns the new `isFullscreen` flag and the commands issued. -/
def handleToggleFullscreen (isFullscreen : Bool) (o : CallOutcome) :
    Bool × List Command :=
  let cmd := if !isFullscreen then Command.presentFullscreen else Command.dismissFullscreen
  match o with
  | CallOutcome.refNull => (!isFullscreen, [])
  | CallOutcome.resolves => (!isFullscreen, [cmd])
  | CallOutcome.rejects => (isFullscreen, [cmd])

/-- Permission status returned by `Notifications.getPermissionsAsync()`. -/
inductive PermissionStatus where
  | granted
  | denied
  | undetermined
  deriving DecidableEq

/-- The content-and-trigger request submitted to
`Notifications.scheduleNotificationAsync`: title, body, the payload
`data || {}` (a string-keyed record whose only used values are booleans),
and the one-shot time-interval trigger's `seconds`. -/
structure ScheduledRequest where
  title : String
  body : String
  data : List (String × Bool)
  seconds : Int
  deriving DecidableEq

/-- Observable outcome of one `scheduleNotification` call: its returned
boolean, whether it logged the permission warning, whether it showed the
failure alert, and the platform scheduling calls it submitted. -/
structure ScheduleResult where
  returned : Bool
  warned : Bool
  alerted : Bool
  submitted : List ScheduledRequest
  deriving DecidableEq

/-- Embedding of the delay clamp at the top of `scheduleNotification`
((tabs)/index.tsx lines 214-217): `if (delaySeconds <= 0) delaySeconds = 1`. -/
def effectiveDelay (delaySeconds : Int) : Int :=
  if delaySeconds ≤ 0 then 1 else delaySeconds

/-- Embedding of `scheduleNotification` ((tabs)/index.tsx lines 207-247):
clamp the delay; re-check permission at call time; if not granted, warn and
return false with no platform call; otherwise submit a one-shot
time-interval trigger — a platform rejection is caught locally (alert,
return false), never rethrown, which is why the result is a plain value. -/
def scheduleNotification (title body : String) (delaySeconds : Int)
    (data : Option (List (String × Bool)))
    (perm : PermissionStatus) (platformAccepts : Bool) : ScheduleResult :=
  let d := effectiveDelay delaySeconds
  if perm != PermissionStatus.granted then
    { returned := false, warned := true, alerted := false, submitted := [] }
  else
    let req : ScheduledRequest := ⟨title, body, data.getD [], d⟩
    if platformAccepts then
      { returned := true, warned := false, alerted := false, submitted := [req] }
    else
      { returned := false, warned := false, alerted := true, submitted := [req] }

/-- Observable outcome of the WebView `onLoadEnd` handler. -/
structure LoadEndResult where
  isLoading : Bool
  sched : ScheduleResult
  deriving DecidableEq

/-- Embedding of `handleLoadEnd` ((tabs)/index.tsx lines 291-298): clears the
loading indicator, then schedules the "WebView Loaded!" notification with a
fixed 2-second delay and no payload (the `data` argument is omitted). -/
def handleLoadEnd (perm : PermissionStatus) (platformAccepts : Bool) : LoadEndResult :=
  { isLoading := false,
    sched := scheduleNotification "WebView Loaded!"
      "The website has finished loading successfully." 2 none perm platformAccepts }

/-- Observable outcome of the WebView `onError` handler. -/
structure ErrorResult where
  isLoading : Bool
  warned : Bool
  submitted : List ScheduledRequest
  deriving DecidableEq

/-- Embedding of `handleError` ((tabs)/index.tsx lines 306-310): logs a
warning and clears the loading indicator; it makes no scheduling call. -/
def handleError : ErrorResult :=
  { isLoading := false, warned := true, submitted := [] }

/-- The theme preference type of ThemeContext.tsx (where `auto` is
follow-system). -/
inductive ColorScheme where
  | light
  | dark
  | auto
  deriving DecidableEq

/-- Theme store state: the in-memory preference (React state, synchronously
visible to all readers after `setThemePreferenceState`) and the last value
successfully persisted to AsyncStorage. -/
structure ThemeStoreState where
  inMemory : ColorScheme
  persisted : Option ColorScheme
  deriving DecidableEq

/-- Embedding of `setThemePreference` (ThemeContext.tsx lines 50-57): set the
in-memory value first, then attempt the AsyncStorage persist; a persist
failure is caught and logged (second component `true`) and does not touch
the in-memory value. -/
def setThemePreference (s : ThemeStoreState) (theme : ColorScheme)
    (persistOk : Bool) : ThemeStoreState × Bool :=
  let s1 : ThemeStoreState := { s with inMemory := theme }
  if persistOk then ({ s1 with persisted := some theme }, false)
  else (s1, true)

/-- Events of one `setThemePreference` call in execution order: the
synchronous in-memory update, then the asynchronous persist attempt, then
(on failure) the error log. -/
inductive ThemeEvent where
  | memUpdate (t : ColorScheme)
  | persistAttempt (t : ColorScheme)
  | logErrorEv
  deriving DecidableEq

/-- Execution trace of `setThemePreference` (ThemeContext.tsx lines 50-57):
`setThemePreferenceState(theme)` runs before the `await
AsyncStorage.setItem(...)`, whose failure lands in the `catch` log. -/
def setThemePreferenceTrace (theme : ColorScheme) (persistOk : Bool) :
    List ThemeEvent :=
  ThemeEvent.memUpdate theme :: ThemeEvent.persistAttempt theme ::
    (if persistOk then [] else [ThemeEvent.logErrorEv])

/-- Claim C1, counterexample: the claim that for durationMillis > 0 the
derived progress always lies between 0 and 100 fails on the code — a loaded
status with positionMillis = 2000 and durationMillis = 1000 (nothing in the
code or data model clamps position to the duration) yields progress 200. -/
theorem getProgress_exceeds_100_counterexample :
    getProgress (some (AVPlaybackStatus.loaded 2000 (some 1000) false)) = 200 ∧
    ¬ getProgress (some (AVPlaybackStatus.loaded 2000 (some 1000) false)) ≤ 100 := by
  constructor
  · norm_num [getProgress]
  · norm_num [getProgress]

/-- Claim C1, amended: for every loaded status with durationMillis > 0, the
derived progress equals positionMillis / durationMillis * 100 exactly and is
nonnegative; it is at most 100 whenever positionMillis ≤ durationMillis. -/
theorem getProgress_formula_and_bounds (pos dur : Nat) (isP : Bool) (h : 0 < dur) :
    getProgress (some (AVPlaybackStatus.loaded pos (some dur) isP)) =
      (pos : ℚ) / (dur : ℚ) * 100 ∧
    0 ≤ getProgress (some (AVPlaybackStatus.loaded pos (some dur) isP)) ∧
    (pos ≤ dur → getProgress (some (AVPlaybackStatus.loaded pos (some dur) isP)) ≤ 100) := by
  have hne : dur ≠ 0 := Nat.pos_iff_ne_zero.mp h
  have hq : (0 : ℚ) < (dur : ℚ) := by exact_mod_cast h
  have hval : getProgress (some (AVPlaybackStatus.loaded pos (some dur) isP)) =
      (pos : ℚ) / (dur : ℚ) * 100 := by
    simp [getProgress, hne]
  refine ⟨hval, ?_, ?_⟩
  · rw [hval]
    positivity
  · intro hle
    rw [hval]
    have h1 : (pos : ℚ) / (dur : ℚ) ≤ 1 := by
      rw [div_le_one hq]
      exact_mod_cast hle
    nlinarith [h1]

/-- Claim C1, witness for the amended theorem at pos = 1, dur = 2. -/
theorem getProgress_formula_and_bounds_witness :
    0 < 2 ∧
    (getProgress (some (AVPlaybackStatus.loaded 1 (some 2) false)) =
       ((1 : Nat) : ℚ) / ((2 : Nat) : ℚ) * 100 ∧
     0 ≤ getProgress (some (AVPlaybackStatus.loaded 1 (some 2) false)) ∧
     (1 ≤ 2 → getProgress (some (AVPlaybackStatus.loaded 1 (some 2) false)) ≤ 100)) :=
  ⟨by decide, getProgress_formula_and_bounds 1 2 false (by decide)⟩

/-- Claim C2: for every delaySeconds ≤ 0, the clamped delay is exactly 1 and
the one-shot time-interval trigger submitted by a granted, accepted
scheduling call carries seconds = 1. -/
theorem scheduleNotification_clamps_nonpositive_delay
    (title body : String) (d : Int) (data : Option (List (String × Bool)))
    (hd : d ≤ 0) :
    effectiveDelay d = 1 ∧
    (scheduleNotification title body d data PermissionStatus.granted true).submitted =
      [⟨title, body, data.getD [], 1⟩] := by
  have h1 : effectiveDelay d = 1 := by simp [effectiveDelay, hd]
  refine ⟨h1, ?_⟩
  simp [scheduleNotification, h1]

/-- Claim C2, witness: scheduling with delaySeconds = -3 uses effective
delay 1. -/
theorem scheduleNotification_clamps_witness :
    (-3 : Int) ≤ 0 ∧
    (effectiveDelay (-3) = 1 ∧
     (scheduleNotification "Welcome Notification!" "b" (-3) none
        PermissionStatus.granted true).submitted =
       [⟨"Welcome Notification!", "b", [], 1⟩]) :=
  ⟨by decide, scheduleNotification_clamps_nonpositive_delay
    "Welcome Notification!" "b" (-3) none (by decide)⟩

/-- Claim C3: when permission is not granted at call time, the scheduler
returns false (without throwing — the embedding is a total function because
every platform failure is caught in the source), logs the warning, and
submits no platform scheduling call. -/
theorem scheduleNotification_denied (title body : String) (d : Int)
    (data : Option (List (String × Bool))) (perm : PermissionStatus) (acc : Bool)
    (h : perm ≠ PermissionStatus.granted) :
    (scheduleNotification title body d data perm acc).returned = false ∧
    (scheduleNotification title body d data perm acc).warned = true ∧
    (scheduleNotification title body d data perm acc).submitted = [] := by
  simp [scheduleNotification, bne_iff_ne, h]

/-- Claim C3, witness at denied permission. -/
theorem scheduleNotification_denied_witness :
    PermissionStatus.denied ≠ PermissionStatus.granted ∧
    ((scheduleNotification "t" "b" 5 none PermissionStatus.denied true).returned = false ∧
     (scheduleNotification "t" "b" 5 none PermissionStatus.denied true).warned = true ∧
     (scheduleNotification "t" "b" 5 none PermissionStatus.denied true).submitted = []) :=
  ⟨by decide, scheduleNotification_denied "t" "b" 5 none PermissionStatus.denied true
    (by decide)⟩

/-- Claim C4: whenever durationMillis is absent, unknown, or 0 (including a
null or not-loaded status), the progress is 0, the duration label is "0:00",
and the division branch of getProgress is not taken. -/
theorem progress_zero_when_duration_unknown (status : Option AVPlaybackStatus)
    (h : durationUnknownOrZero status = true) :
    getProgress status = 0 ∧ getDuration status = "0:00" ∧
    getProgressDivides status = false := by
  rcases status with _ | st
  · exact ⟨rfl, rfl, rfl⟩
  rcases st with _ | ⟨p, d, ip⟩
  · exact ⟨rfl, rfl, rfl⟩
  rcases d with _ | d
  · exact ⟨rfl, rfl, rfl⟩
  have hd : d = 0 := by simpa [durationUnknownOrZero] using h
  subst hd
  exact ⟨rfl, rfl, rfl⟩

/-- Claim C4, witness at a loaded status with unknown duration. -/
theorem progress_zero_when_duration_unknown_witness :
    durationUnknownOrZero (some (AVPlaybackStatus.loaded 5 none true)) = true ∧
    (getProgress (some (AVPlaybackStatus.loaded 5 none true)) = 0 ∧
     getDuration (some (AVPlaybackStatus.loaded 5 none true)) = "0:00" ∧
     getProgressDivides (some (AVPlaybackStatus.loaded 5 none true)) = false) :=
  ⟨rfl, progress_zero_when_duration_unknown (some (AVPlaybackStatus.loaded 5 none true)) rfl⟩

/-- Claim C5: the deriveDisplay scenario — position 65000 ms and duration
125000 ms give labels "1:05" and "2:05" and progress 52 — and, at position
3605999 ms, milliseconds are floored to whole seconds, the seconds component
is zero-padded to two digits, and minutes pass 59 without hour rollover
("60:05"). -/
theorem timeLabels_scenario_and_format :
    getCurrentTime (some (AVPlaybackStatus.loaded 65000 (some 125000) false)) = "1:05" ∧
    getDuration (some (AVPlaybackStatus.loaded 65000 (some 125000) false)) = "2:05" ∧
    getProgress (some (AVPlaybackStatus.loaded 65000 (some 125000) false)) = 52 ∧
    getCurrentTime (some (AVPlaybackStatus.loaded 3605999 (some 125000) true)) = "60:05" := by
  refine ⟨by decide, by decide, ?_, by decide⟩
  norm_num [getProgress]

/-- Claim C6: toggling mute twice, with each awaited set-muted platform call
resolving, returns the screen-local isMuted flag to its original value. -/
theorem toggleMute_twice_restores (m : Bool) :
    (handleToggleMute (handleToggleMute m CallOutcome.resolves).1 CallOutcome.resolves).1
      = m := by
  cases m <;> rfl

/-- Claim C7: with a known position in the latest status snapshot, handleSeek
issues exactly the absolute seek to positionMillis + deltaSeconds * 1000 with
no clamping; with a null or not-loaded status (no positionMillis field) it
issues no command at all. -/
theorem handleSeek_absolute_unclamped (pos : Nat) (dur : Option Nat) (p : Bool)
    (delta : Int) :
    handleSeek (some (AVPlaybackStatus.loaded pos dur p)) delta CallOutcome.resolves =
      [Command.setPosition ((pos : Int) + delta * 1000)] ∧
    (∀ o, handleSeek none delta o = []) ∧
    (∀ o, handleSeek (some AVPlaybackStatus.notLoaded) delta o = []) :=
  ⟨rfl, fun _ => rfl, fun _ => rfl⟩

/-- Claim C8: the onError handler clears the loading indicator, warns, and
schedules nothing; the "WebView Loaded!" notification is scheduled only by
the load-end handler, always with a fixed 2-second trigger and an empty
payload. -/
theorem loadEnd_schedules_error_schedules_nothing :
    handleError.isLoading = false ∧ handleError.warned = true ∧
    handleError.submitted = [] ∧
    (handleLoadEnd PermissionStatus.granted true).isLoading = false ∧
    (handleLoadEnd PermissionStatus.granted true).sched.submitted =
      [⟨"WebView Loaded!", "The website has finished loading successfully.", [], 2⟩] ∧
    (∀ perm acc, ((handleLoadEnd perm acc).sched.submitted.all
        fun r => r.seconds == 2 && r.data.isEmpty) = true) := by
  refine ⟨rfl, rfl, rfl, rfl, by decide, ?_⟩
  intro perm acc
  cases perm <;> cases acc <;> decide

/-- Claim C9: setThemePreference makes the in-memory preference equal to the
requested theme immediately (the memory update is the first trace event,
before the persist attempt), reports a logged error exactly when the persist
fails, and never reverts the in-memory value on failure. -/
theorem setThemePreference_immediate_and_not_reverted (s : ThemeStoreState)
    (t : ColorScheme) (ok : Bool) :
    (setThemePreference s t ok).1.inMemory = t ∧
    (setThemePreference s t ok).2 = !ok ∧
    (setThemePreferenceTrace t ok).head? = some (ThemeEvent.memUpdate t) ∧
    (setThemePreferenceTrace t ok)[1]? = some (ThemeEvent.persistAttempt t) ∧
    ThemeEvent.logErrorEv ∈ setThemePreferenceTrace t false := by
  cases ok <;> simp [setThemePreference, setThemePreferenceTrace]

/-- Claim C10: with a null media element handle, toggleMute and
toggleFullscreen still flip their screen-local flags while issuing no
platform command, whereas play and pause issue no command and touch no
state (their command list is their only observable effect). -/
theorem nullRef_toggles_flip_locally (m f : Bool) :
    handleToggleMute m CallOutcome.refNull = (!m, []) ∧
    handleToggleFullscreen f CallOutcome.refNull = (!f, []) ∧
    handlePlay CallOutcome.refNull = [] ∧
    handlePause CallOutcome.refNull = [] :=
  ⟨rfl, rfl, rfl, rfl⟩
